import Mathlib

/-
Verification development for the a2a-multiagent-server task-processing
pipeline (src/main.go, src/trtc_api.go).

The pipeline's external collaborators — the OpenAI backend, the TRTC voice
backend and the A2A task runtime's TaskHandle — are modelled by an
environment record (`Env`) supplying every external call's result, and every
call the pipeline makes through a capability is recorded in an event trace
(`List Event`).  Wall-clock values (the `timestamp` metadata entry,
time-to-first-token logging) and log output are not modelled; everything
else follows main.go line by line.
-/

namespace A2AServer

/-- Roles of protocol messages (protocol.MessageRoleUser / MessageRoleAgent). -/
inductive MessageRole
  | user
  | agent
deriving DecidableEq

/-- A message part.  `extractText` (main.go:329-336) only distinguishes
`protocol.TextPart` from every other part kind, so all non-text part kinds
are collapsed into the single constructor `other`. -/
inductive Part
  | text (text : String)
  | other
deriving DecidableEq

/-- Is this part a `protocol.TextPart`?  (the type switch in main.go:331). -/
def Part.isText : Part → Bool
  | Part.text _ => true
  | Part.other => false

/-- protocol.Message: a role plus an ordered list of parts. -/
structure Message where
  role : MessageRole
  parts : List Part
deriving DecidableEq

/-- protocol.NewTextPart. -/
def NewTextPart (s : String) : Part := Part.text s

/-- protocol.NewMessage. -/
def NewMessage (role : MessageRole) (parts : List Part) : Message :=
  { role := role, parts := parts }

/-- The agent-authored single-text-part message the pipeline builds at every
status update (protocol.NewMessage(MessageRoleAgent, []Part{NewTextPart s})). -/
def mkAgentMessage (s : String) : Message :=
  NewMessage MessageRole.agent [NewTextPart s]

/-- The task lifecycle states this pipeline writes
(protocol.TaskStateWorking / Completed / Failed / Canceled). -/
inductive TaskState
  | working
  | completed
  | failed
  | canceled
deriving DecidableEq

/-- A value of the artifact metadata map (Go `map[string]interface{}`; the
values written by main.go are ints, strings and bools; all ints written are
non-negative counters or lengths). -/
inductive MetaValue
  | num (n : Nat)
  | str (s : String)
  | flag (b : Bool)
deriving DecidableEq

/-- protocol.Artifact as populated by main.go.  `append` and `lastChunk` are
optional because the Go fields are `*bool` left nil when unset.  The
`timestamp` metadata entry (time.Now().UnixNano()) is wall-clock and omitted. -/
structure Artifact where
  name : Option String
  description : Option String
  index : Nat
  parts : List Part
  append : Option Bool
  lastChunk : Option Bool
  metadata : List (String × MetaValue)
deriving DecidableEq

/-- One call the pipeline makes through an external capability, in order:
TaskHandle.UpdateStatus, TaskHandle.AddArtifact, the intent-classification
completion call (main.go:384), the generation completion / stream call
(main.go:121 / main.go:256), and the TRTC voice update
(UpdateAIConversationXiaoMei / XiaoShuai, main.go:401/412). -/
inductive Event
  | updateStatus (state : TaskState) (msg : Option Message)
  | addArtifact (artifact : Artifact)
  | classifierCall (system user : String)
  | completionCall (system user : String) (stream : Bool)
  | voiceCall (intent taskID : String)
deriving DecidableEq

/-- What stream.Recv returns once the successful chunks are exhausted:
io.EOF, or a receive error. -/
inductive StreamTerminal
  | eof
  | recvErr (msg : String)
deriving DecidableEq

/-- The whole streaming response: each successful Recv's Choices (each choice
reduced to its Delta.Content), then the terminating Recv result. -/
structure StreamSpec where
  chunks : List (List String)
  terminal : StreamTerminal
deriving DecidableEq

/-- Environment: the results every external call would return.
`classifierResult` / `completionResult` are CreateChatCompletion outcomes
(error, or the response's Choices reduced to message contents);
`streamCreate` is the CreateChatCompletionStream outcome; `cancelAt = some k`
means ctx.Err() first reports cancellation at the k-th top-of-loop check
(0-based, one check per Recv); `usErr n` tells whether the n-th UpdateStatus
call (0-based, in call order) returns an error.  `aaErr` and `voiceErr`
record whether AddArtifact calls and the voice update would fail: main.go
only ever logs those errors (main.go:188-190, 211-213, 309-311, 401-419), so
the pipeline never reads them. -/
structure Env where
  isStreaming : Bool
  classifierResult : Except String (List String)
  completionResult : Except String (List String)
  streamCreate : Except String StreamSpec
  cancelAt : Option Nat
  usErr : Nat → Bool
  aaErr : Nat → Bool
  voiceErr : Bool

/-- The error text of a failing TaskHandle.UpdateStatus call.  The Go handle
error is opaque to main.go, which only wraps or returns it; it is modelled by
this fixed placeholder string. -/
def handleErrText : String := "status update failed"

/-- Result of a Go helper returning (string, error), plus the runtime panic
an unchecked `Choices[0]` on an empty slice would raise. -/
inductive CallResult
  | ok (value : String)
  | err (msg : String)
  | panicked
deriving DecidableEq

/-- Result of the whole pipeline: nil error, a non-nil error (its message),
or a runtime panic from an unchecked `Choices[0]`. -/
inductive Outcome
  | ok
  | error (msg : String)
  | panicked
deriving DecidableEq

/-- The fixed system prompt of the intent classifier (main.go:371-375);
the Go raw-string literal's layout is reproduced up to indentation. -/
def intentSystemPrompt : String :=
  "You are an intent detection assistant. You need to determine which AI assistant the user wants to talk to.\nOptions are:\n1. XiaoMei(小美): Female assistant, lively and cute personality, can solve female-related issues.\n2. XiaoShuai(小帅): Male assistant, sunny and cheerful personality, can solve male-related issues.\nPlease only reply with \"XiaoMei\" or \"XiaoShuai\""

/-- Go strings.TrimSpace (main.go:389), modelled over the character list:
drop leading and trailing whitespace characters.  (Char.isWhitespace covers
the ASCII whitespace Go trims; exotic Unicode space classes are out of
scope for the two enumerated labels.) -/
def trimSpace (s : String) : String :=
  String.mk (((s.data.dropWhile Char.isWhitespace).reverse.dropWhile Char.isWhitespace).reverse)

/-- Intent parsing (main.go:389-395): trim the first choice's content; unless
it is exactly one of the two labels, fall back to "XiaoMei". -/
def resolveIntent (content : String) : String :=
  let intent := trimSpace content
  if intent ≠ "XiaoMei" ∧ intent ≠ "XiaoShuai" then "XiaoMei" else intent

/-- detectIntent (main.go:365-423).  Issues one classification completion
call; on transport error returns the wrapped error (main.go:386); otherwise
reads `resp.Choices[0].Message.Content` without a bounds check (a panic when
Choices is empty), resolves the intent, and — only when len(taskID) > 64
(Go byte length, i.e. utf8ByteSize) — performs the voice update, whose
outcome is only logged (main.go:397-420). -/
def detectIntent (text taskID : String) (env : Env) : List Event × CallResult :=
  let callEv := Event.classifierCall intentSystemPrompt text
  match env.classifierResult with
  | Except.error e => ([callEv], CallResult.err ("intent detection failed: " ++ e))
  | Except.ok choices =>
    match choices with
    | [] => ([callEv], CallResult.panicked)
    | c :: _ =>
      let intent := resolveIntent c
      if 64 < taskID.utf8ByteSize then
        ([callEv, Event.voiceCall intent taskID], CallResult.ok intent)
      else
        ([callEv], CallResult.ok intent)

/-- getAssistantPrompt (main.go:426-432): a Go map literal lookup; a missing
key yields the empty string (Go map zero value). -/
def getAssistantPrompt (intent : String) : String :=
  if intent = "XiaoMei" then
    "You are an AI assistant named XiaoMei(小美). Keep the conversation casual, lively, and concise"
  else if intent = "XiaoShuai" then
    "You are an AI assistant named XiaoShuai(小帅). Keep the conversation casual, humorous, and concise"
  else ""

/-- The per-chunk content artifact (main.go:172-186).  `totalLen` is
fullResponse.Len() after the current content was written (main.go:158 runs
before the artifact is built); `append` is boolPtr(chunkIndex > 0). -/
def contentArtifact (model : String) (chunkIndex : Nat) (content : String) (totalLen : Nat) : Artifact :=
  { name := some ("Chunk " ++ toString (chunkIndex + 1))
    description := some "Streaming chunk from OpenAI"
    index := chunkIndex
    parts := [NewTextPart content]
    append := some (decide (0 < chunkIndex))
    lastChunk := none
    metadata := [("chunk_size", MetaValue.num content.utf8ByteSize),
                 ("chunk_index", MetaValue.num chunkIndex),
                 ("total_length", MetaValue.num totalLen),
                 ("model", MetaValue.str model),
                 ("is_streaming", MetaValue.flag true)] }

/-- The closing artifact (main.go:196-210), emitted only when chunkIndex > 0:
empty parts, LastChunk=true, Index = chunkIndex - 1. -/
def closingArtifact (model : String) (chunkIndex totalLen : Nat) : Artifact :=
  { name := some ("Chunk " ++ toString chunkIndex)
    description := some "Final chunk from OpenAI"
    index := chunkIndex - 1
    parts := []
    append := none
    lastChunk := some true
    metadata := [("total_chunks", MetaValue.num chunkIndex),
                 ("total_length", MetaValue.num totalLen),
                 ("model", MetaValue.str model),
                 ("is_streaming", MetaValue.flag true),
                 ("is_last_chunk", MetaValue.flag true)] }

/-- The single non-streaming artifact (main.go:295-307). -/
def nonStreamingArtifact (model content : String) : Artifact :=
  { name := some "Processed Text"
    description := some "Complete processed text from OpenAI"
    index := 0
    parts := [NewTextPart content]
    append := none
    lastChunk := some true
    metadata := [("total_length", MetaValue.num content.utf8ByteSize),
                 ("model", MetaValue.str model),
                 ("is_streaming", MetaValue.flag false)] }

/-- Has ctx.Err() become non-nil by the `iter`-th top-of-loop check? -/
def ctxCanceled (cancelAt : Option Nat) (iter : Nat) : Bool :=
  match cancelAt with
  | none => false
  | some k => decide (k ≤ iter)

/-- How the streaming receive loop (main.go:132-193) exits. -/
inductive LoopExit
  | finished (chunkIndex totalLen : Nat)
  | canceledExit
  | recvFailed (msg : String)
  | panicked
deriving DecidableEq

/-- Result of the streaming receive loop: the TaskHandle events it emitted,
its exit, and the UpdateStatus call counter afterwards. -/
structure LoopRes where
  events : List Event
  exit : LoopExit
  usCount : Nat
deriving DecidableEq

/-- The streaming receive loop (main.go:132-193).  Each iteration first
checks ctx.Err() (on cancellation: one ignored UpdateStatus(canceled, nil)
and return), then Recv's the next chunk (io.EOF breaks; any other error
aborts), reads `Choices[0].Delta.Content` without a bounds check (panic on an
empty Choices), skips empty content, and for non-empty content emits one
progress UpdateStatus(working) and one content artifact — both failures only
logged (main.go:168-170, 188-190). -/
def streamLoop (model : String) (cancelAt : Option Nat)
    (chunks : List (List String)) (terminal : StreamTerminal)
    (iter chunkIndex totalLen usCount : Nat) : LoopRes :=
  if ctxCanceled cancelAt iter then
    { events := [Event.updateStatus TaskState.canceled none],
      exit := LoopExit.canceledExit, usCount := usCount + 1 }
  else
    match chunks with
    | [] =>
      match terminal with
      | StreamTerminal.eof =>
        { events := [], exit := LoopExit.finished chunkIndex totalLen, usCount := usCount }
      | StreamTerminal.recvErr m =>
        { events := [],
          exit := LoopExit.recvFailed ("failed to receive OpenAI streaming response: " ++ m),
          usCount := usCount }
    | choices :: rest =>
      match choices with
      | [] => { events := [], exit := LoopExit.panicked, usCount := usCount }
      | content :: _ =>
        if content = "" then
          streamLoop model cancelAt rest terminal (iter + 1) chunkIndex totalLen usCount
        else
          let newLen := totalLen + content.utf8ByteSize
          let res := streamLoop model cancelAt rest terminal (iter + 1) (chunkIndex + 1) newLen (usCount + 1)
          { events := Event.updateStatus TaskState.working (some (mkAgentMessage content))
              :: Event.addArtifact (contentArtifact model chunkIndex content newLen)
              :: res.events,
            exit := res.exit, usCount := res.usCount }

/-- processWithOpenAIStreaming (main.go:92-228): detect intent (errors are
wrapped a second time, main.go:101), open the stream, run the receive loop;
after a normal loop exit emit the closing artifact when chunkIndex > 0 and
the final UpdateStatus(completed) whose failure aborts (main.go:222-225).
`usCount` is the number of UpdateStatus calls already made by the caller. -/
def processWithOpenAIStreaming (model taskID text : String) (env : Env) (usCount : Nat) :
    List Event × Outcome :=
  match detectIntent text taskID env with
  | (ievs, CallResult.err m) => (ievs, Outcome.error ("intent detection failed: " ++ m))
  | (ievs, CallResult.panicked) => (ievs, Outcome.panicked)
  | (ievs, CallResult.ok intent) =>
    let callEv := Event.completionCall (getAssistantPrompt intent) text true
    match env.streamCreate with
    | Except.error e =>
      (ievs ++ [callEv], Outcome.error ("failed to create OpenAI streaming request: " ++ e))
    | Except.ok spec =>
      let res := streamLoop model env.cancelAt spec.chunks spec.terminal 0 0 0 usCount
      match res.exit with
      | LoopExit.canceledExit => (ievs ++ callEv :: res.events, Outcome.error "context canceled")
      | LoopExit.recvFailed m => (ievs ++ callEv :: res.events, Outcome.error m)
      | LoopExit.panicked => (ievs ++ callEv :: res.events, Outcome.panicked)
      | LoopExit.finished chunkIndex totalLen =>
        let closing :=
          if 0 < chunkIndex then [Event.addArtifact (closingArtifact model chunkIndex totalLen)]
          else []
        let finalEv := Event.updateStatus TaskState.completed
          (some (mkAgentMessage ("Processing complete. Received " ++ toString chunkIndex ++ " chunks.")))
        let evs := ievs ++ callEv :: (res.events ++ closing ++ [finalEv])
        if env.usErr res.usCount then
          (evs, Outcome.error ("failed to update final task status: " ++ handleErrText))
        else
          (evs, Outcome.ok)

/-- processWithOpenAINonStreaming (main.go:232-266): detect intent (wrapped a
second time, main.go:239), one blocking completion call, guard against an
empty Choices (main.go:261-263), return Choices[0].Message.Content. -/
def processWithOpenAINonStreaming (model text taskID : String) (env : Env) :
    List Event × CallResult :=
  match detectIntent text taskID env with
  | (ievs, CallResult.err m) => (ievs, CallResult.err ("intent detection failed: " ++ m))
  | (ievs, CallResult.panicked) => (ievs, CallResult.panicked)
  | (ievs, CallResult.ok intent) =>
    let callEv := Event.completionCall (getAssistantPrompt intent) text false
    match env.completionResult with
    | Except.error e =>
      (ievs ++ [callEv], CallResult.err ("failed to create OpenAI request: " ++ e))
    | Except.ok choices =>
      match choices with
      | [] => (ievs ++ [callEv], CallResult.err "no choices in OpenAI response")
      | c :: _ => (ievs ++ [callEv], CallResult.ok c)

/-- processNonStreaming (main.go:269-326): initial UpdateStatus(working)
whose failure aborts (main.go:279-282); on a generation error an ignored
UpdateStatus(failed) and the error is returned; on success one artifact
(failure only logged, main.go:309-311) and a final UpdateStatus(completed)
whose failure aborts (main.go:319-322). -/
def processNonStreaming (model taskID text : String) (env : Env) : List Event × Outcome :=
  let initEv := Event.updateStatus TaskState.working
    (some (mkAgentMessage "Processing your text with OpenAI..."))
  if env.usErr 0 then ([initEv], Outcome.error handleErrText)
  else
    match processWithOpenAINonStreaming model text taskID env with
    | (evs, CallResult.panicked) => (initEv :: evs, Outcome.panicked)
    | (evs, CallResult.err m) =>
      (initEv :: (evs ++ [Event.updateStatus TaskState.failed
        (some (mkAgentMessage ("Failed to process with OpenAI: " ++ m)))]),
       Outcome.error m)
    | (evs, CallResult.ok content) =>
      let finalEv := Event.updateStatus TaskState.completed
        (some (mkAgentMessage "Processing complete. OpenAI response received."))
      let evs2 := initEv :: (evs ++ [Event.addArtifact (nonStreamingArtifact model content), finalEv])
      if env.usErr 1 then
        (evs2, Outcome.error ("failed to update final task status: " ++ handleErrText))
      else
        (evs2, Outcome.ok)

/-- extractText (main.go:329-336): the Text of the message's first TextPart,
or "" when there is none. -/
def extractTextParts : List Part → String
  | [] => ""
  | Part.text s :: _ => s
  | Part.other :: rest => extractTextParts rest

/-- extractText over a whole message. -/
def extractText (message : Message) : String :=
  extractTextParts message.parts

/-- Process (main.go:36-88): validate the extracted text (empty text fails
the task with an ignored UpdateStatus(failed) and returns the validation
error before any backend call); dispatch on IsStreamingRequest; in streaming
mode do the initial UpdateStatus(working) whose failure aborts
(main.go:71-74), run processWithOpenAIStreaming, and on ANY error from it —
including the cancellation error — issue an ignored UpdateStatus(failed)
wrapping the error (main.go:76-84). -/
def Process (model taskID : String) (message : Message) (env : Env) : List Event × Outcome :=
  let text := extractText message
  if text = "" then
    let errMsg := "input message must contain text"
    ([Event.updateStatus TaskState.failed (some (mkAgentMessage errMsg))], Outcome.error errMsg)
  else if env.isStreaming = false then
    processNonStreaming model taskID text env
  else
    let initEv := Event.updateStatus TaskState.working
      (some (mkAgentMessage "Starting to process your streaming data with OpenAI..."))
    if env.usErr 0 then ([initEv], Outcome.error handleErrText)
    else
      match processWithOpenAIStreaming model taskID text env 1 with
      | (evs, Outcome.ok) => (initEv :: evs, Outcome.ok)
      | (evs, Outcome.panicked) => (initEv :: evs, Outcome.panicked)
      | (evs, Outcome.error m) =>
        (initEv :: (evs ++ [Event.updateStatus TaskState.failed
          (some (mkAgentMessage ("Failed to process with OpenAI: " ++ m)))]),
         Outcome.error m)

/-- The artifacts appended during a run, in order. -/
def artifactsOf (events : List Event) : List Artifact :=
  events.filterMap fun e =>
    match e with
    | Event.addArtifact a => some a
    | _ => none

/-! Characterisations of the runs, proved equal to the functions above. -/

/-- The non-empty content increments of a streaming response: for each Recv,
the first choice's Delta.Content when it is non-empty.  (Chunks with an empty
Choices list are excluded here; they make the loop panic instead.) -/
def nonEmptyIncrements : List (List String) → List String
  | [] => []
  | [] :: rest => nonEmptyIncrements rest
  | (c :: _) :: rest =>
    if c = "" then nonEmptyIncrements rest else c :: nonEmptyIncrements rest

/-- Total byte length of a list of increments (fullResponse.Len()). -/
def incrementsLen (incs : List String) : Nat :=
  (incs.map String.utf8ByteSize).sum

/-- The TaskHandle events the receive loop emits for the given non-empty
increments, starting at the given chunk index and accumulated length. -/
def loopEvents (model : String) : Nat → Nat → List String → List Event
  | _, _, [] => []
  | chunkIndex, totalLen, c :: rest =>
    Event.updateStatus TaskState.working (some (mkAgentMessage c))
      :: Event.addArtifact (contentArtifact model chunkIndex c (totalLen + c.utf8ByteSize))
      :: loopEvents model (chunkIndex + 1) (totalLen + c.utf8ByteSize) rest

/-- The content artifacts the receive loop appends for the given non-empty
increments. -/
def contentArtifacts (model : String) : Nat → Nat → List String → List Artifact
  | _, _, [] => []
  | chunkIndex, totalLen, c :: rest =>
    contentArtifact model chunkIndex c (totalLen + c.utf8ByteSize)
      :: contentArtifacts model (chunkIndex + 1) (totalLen + c.utf8ByteSize) rest

/-- The events a streaming run emits before the receive loop: initial
working update, classifier call, the (length-gated) voice call, and the
streaming completion call. -/
def streamPrefix (taskID text intent : String) : List Event :=
  Event.updateStatus TaskState.working
      (some (mkAgentMessage "Starting to process your streaming data with OpenAI..."))
    :: Event.classifierCall intentSystemPrompt text
    :: (if 64 < taskID.utf8ByteSize then [Event.voiceCall intent taskID] else [])
    ++ [Event.completionCall (getAssistantPrompt intent) text true]

/-- The full event trace of a streaming run that reaches end-of-stream
normally, as a function of the non-empty increments and of whether the final
completed-status update fails. -/
def streamTrace (model taskID text c : String) (incs : List String) (finalFail : Bool) :
    List Event :=
  let base := streamPrefix taskID text (resolveIntent c)
    ++ loopEvents model 0 0 incs
    ++ (if 0 < incs.length then
          [Event.addArtifact (closingArtifact model incs.length (incrementsLen incs))]
        else [])
    ++ [Event.updateStatus TaskState.completed
          (some (mkAgentMessage ("Processing complete. Received " ++ toString incs.length ++ " chunks.")))]
  if finalFail then
    base ++ [Event.updateStatus TaskState.failed
      (some (mkAgentMessage ("Failed to process with OpenAI: " ++ ("failed to update final task status: " ++ handleErrText))))]
  else base

/-! Lemmas about the receive loop. -/

theorem streamLoop_eof (model : String) :
    ∀ (chunks : List (List String)) (iter chunkIndex totalLen usCount : Nat),
      (∀ ch ∈ chunks, ch ≠ []) →
      streamLoop model none chunks StreamTerminal.eof iter chunkIndex totalLen usCount =
        { events := loopEvents model chunkIndex totalLen (nonEmptyIncrements chunks),
          exit := LoopExit.finished (chunkIndex + (nonEmptyIncrements chunks).length)
                    (totalLen + incrementsLen (nonEmptyIncrements chunks)),
          usCount := usCount + (nonEmptyIncrements chunks).length } := by
  intro chunks
  induction chunks with
  | nil =>
    intro iter chunkIndex totalLen usCount _
    rw [streamLoop.eq_def]
    simp [ctxCanceled, nonEmptyIncrements, loopEvents, incrementsLen]
  | cons ch rest ih =>
    intro iter chunkIndex totalLen usCount h
    have hch : ch ≠ [] := h ch (by simp)
    have hrest : ∀ c ∈ rest, c ≠ [] := fun c hc => h c (by simp [hc])
    obtain ⟨c, cs, rfl⟩ : ∃ c cs, ch = c :: cs := by
      cases ch with
      | nil => exact absurd rfl hch
      | cons c cs => exact ⟨c, cs, rfl⟩
    by_cases hc : c = ""
    · subst hc
      rw [streamLoop.eq_def]
      simp only [ctxCanceled]
      rw [ih (iter + 1) chunkIndex totalLen usCount hrest]
      simp [nonEmptyIncrements]
    · rw [streamLoop.eq_def]
      simp only [ctxCanceled]
      rw [ih (iter + 1) (chunkIndex + 1) (totalLen + c.utf8ByteSize) (usCount + 1) hrest]
      simp only [hc, nonEmptyIncrements, if_neg hc, loopEvents, incrementsLen, List.map_cons,
        List.sum_cons, List.length_cons, LoopRes.mk.injEq, LoopExit.finished.injEq,
        Bool.false_eq_true, if_false]
      refine ⟨trivial, ⟨by omega, by omega⟩, by omega⟩

theorem streamLoop_cancel (model : String) (terminal : StreamTerminal) :
    ∀ (j : Nat) (chunks : List (List String)) (iter chunkIndex totalLen usCount : Nat),
      j ≤ chunks.length →
      (∀ ch ∈ chunks.take j, ch ≠ []) →
      streamLoop model (some (iter + j)) chunks terminal iter chunkIndex totalLen usCount =
        { events := loopEvents model chunkIndex totalLen (nonEmptyIncrements (chunks.take j))
                      ++ [Event.updateStatus TaskState.canceled none],
          exit := LoopExit.canceledExit,
          usCount := usCount + (nonEmptyIncrements (chunks.take j)).length + 1 } := by
  intro j
  induction j with
  | zero =>
    intro chunks iter chunkIndex totalLen usCount _ _
    rw [streamLoop.eq_def]
    simp [ctxCanceled, nonEmptyIncrements, loopEvents]
  | succ j ih =>
    intro chunks iter chunkIndex totalLen usCount hj htake
    obtain ⟨ch, rest, rfl⟩ : ∃ ch rest, chunks = ch :: rest := by
      cases chunks with
      | nil => exact absurd hj (by simp)
      | cons ch rest => exact ⟨ch, rest, rfl⟩
    have hch : ch ≠ [] := htake ch (by simp [List.take_succ_cons])
    have hrest : ∀ c ∈ rest.take j, c ≠ [] := by
      intro c hc
      exact htake c (by simp [List.take_succ_cons, hc])
    have hj2 : j ≤ rest.length := by simpa using hj
    have harith : iter + (j + 1) = (iter + 1) + j := by omega
    obtain ⟨c, cs, rfl⟩ : ∃ c cs, ch = c :: cs := by
      cases ch with
      | nil => exact absurd rfl hch
      | cons c cs => exact ⟨c, cs, rfl⟩
    have hnc : ctxCanceled (some (iter + (j + 1))) iter = false := by
      simp only [ctxCanceled, decide_eq_false_iff_not]
      omega
    rw [streamLoop.eq_def]
    simp only [hnc, Bool.false_eq_true, if_false]
    by_cases hc : c = ""
    · subst hc
      simp only [if_pos rfl]
      rw [harith, ih rest (iter + 1) chunkIndex totalLen usCount hj2 hrest]
      simp [List.take_succ_cons, nonEmptyIncrements]
    · simp only [if_neg hc]
      rw [harith, ih rest (iter + 1) (chunkIndex + 1) (totalLen + c.utf8ByteSize) (usCount + 1) hj2 hrest]
      simp only [List.take_succ_cons, nonEmptyIncrements, if_neg hc, loopEvents,
        List.length_cons, LoopRes.mk.injEq]
      refine ⟨by simp, trivial, by omega⟩

theorem streamLoop_exit_ne_panicked (model : String) (cancelAt : Option Nat)
    (terminal : StreamTerminal) :
    ∀ (chunks : List (List String)) (iter chunkIndex totalLen usCount : Nat),
      (∀ ch ∈ chunks, ch ≠ []) →
      (streamLoop model cancelAt chunks terminal iter chunkIndex totalLen usCount).exit ≠
        LoopExit.panicked := by
  intro chunks
  induction chunks with
  | nil =>
    intro iter chunkIndex totalLen usCount _
    rw [streamLoop.eq_def]
    by_cases hcc : ctxCanceled cancelAt iter
    · simp [hcc]
    · cases terminal <;> simp [hcc]
  | cons ch rest ih =>
    intro iter chunkIndex totalLen usCount h
    have hch : ch ≠ [] := h ch (by simp)
    have hrest : ∀ c ∈ rest, c ≠ [] := fun c hc => h c (by simp [hc])
    obtain ⟨c, cs, rfl⟩ : ∃ c cs, ch = c :: cs := by
      cases ch with
      | nil => exact absurd rfl hch
      | cons c cs => exact ⟨c, cs, rfl⟩
    rw [streamLoop.eq_def]
    by_cases hcc : ctxCanceled cancelAt iter
    · simp [hcc]
    · by_cases hc : c = ""
      · subst hc
        simp only [hcc, Bool.false_eq_true, if_false, if_pos rfl]
        exact ih (iter + 1) chunkIndex totalLen usCount hrest
      · simp only [hcc, Bool.false_eq_true, if_false, if_neg hc]
        exact ih (iter + 1) (chunkIndex + 1) (totalLen + c.utf8ByteSize) (usCount + 1) hrest

end A2AServer

namespace A2AServer

/-! Lemmas about traces and artifacts. -/

theorem artifactsOf_append (a b : List Event) :
    artifactsOf (a ++ b) = artifactsOf a ++ artifactsOf b := by
  simp [artifactsOf, List.filterMap_append]

theorem artifactsOf_loopEvents (model : String) :
    ∀ (incs : List String) (chunkIndex totalLen : Nat),
      artifactsOf (loopEvents model chunkIndex totalLen incs) =
        contentArtifacts model chunkIndex totalLen incs := by
  intro incs
  induction incs with
  | nil => intro k l; simp [loopEvents, contentArtifacts, artifactsOf]
  | cons c rest ih =>
    intro k l
    simp only [loopEvents, contentArtifacts, artifactsOf, List.filterMap_cons]
    simp only [artifactsOf] at ih
    rw [ih (k + 1) (l + c.utf8ByteSize)]

theorem contentArtifacts_length (model : String) :
    ∀ (incs : List String) (chunkIndex totalLen : Nat),
      (contentArtifacts model chunkIndex totalLen incs).length = incs.length := by
  intro incs
  induction incs with
  | nil => intro k l; simp [contentArtifacts]
  | cons c rest ih => intro k l; simp [contentArtifacts, ih (k + 1) (l + c.utf8ByteSize)]

theorem contentArtifacts_props (model : String) :
    ∀ (incs : List String) (chunkIndex totalLen i : Nat) (a : Artifact),
      (contentArtifacts model chunkIndex totalLen incs)[i]? = some a →
      a.index = chunkIndex + i ∧ a.append = some (decide (0 < chunkIndex + i)) ∧
        a.lastChunk = none ∧ a.parts ≠ [] := by
  intro incs
  induction incs with
  | nil => intro k l i a h; simp [contentArtifacts] at h
  | cons c rest ih =>
    intro k l i a h
    cases i with
    | zero =>
      simp only [contentArtifacts, List.getElem?_cons_zero, Option.some.injEq] at h
      subst h
      simp [contentArtifact, NewTextPart]
    | succ i =>
      simp only [contentArtifacts, List.getElem?_cons_succ] at h
      obtain ⟨h1, h2, h3, h4⟩ := ih (k + 1) (l + c.utf8ByteSize) i a h
      have e : (k + 1) + i = k + (i + 1) := by omega
      rw [e] at h1 h2
      exact ⟨h1, h2, h3, h4⟩

theorem artifactsOf_streamPrefix (taskID text intent : String) :
    artifactsOf (streamPrefix taskID text intent) = [] := by
  by_cases h : 64 < taskID.utf8ByteSize <;> simp [streamPrefix, artifactsOf, h]

theorem no_completed_in_loopEvents (model : String) :
    ∀ (incs : List String) (chunkIndex totalLen : Nat) (m : Option Message),
      Event.updateStatus TaskState.completed m ∉ loopEvents model chunkIndex totalLen incs := by
  intro incs
  induction incs with
  | nil => intro k l m; simp [loopEvents]
  | cons c rest ih =>
    intro k l m
    simp only [loopEvents, List.mem_cons, not_or]
    exact ⟨by simp, by simp, ih (k + 1) (l + c.utf8ByteSize) m⟩

theorem no_completed_in_streamPrefix (taskID text intent : String) (m : Option Message) :
    Event.updateStatus TaskState.completed m ∉ streamPrefix taskID text intent := by
  by_cases h : 64 < taskID.utf8ByteSize <;> simp [streamPrefix, h]

/-! Master lemmas computing whole runs. -/

/-- A streaming run that passes validation, classifies successfully, opens
the stream, is never canceled and reaches end-of-stream: the whole trace and
outcome, as a function of whether the final completed-status update fails. -/
theorem Process_streaming_eof (model taskID : String) (message : Message) (env : Env)
    (c : String) (cs : List String) (spec : StreamSpec)
    (hstream : env.isStreaming = true)
    (hus0 : env.usErr 0 = false)
    (hclf : env.classifierResult = Except.ok (c :: cs))
    (hsc : env.streamCreate = Except.ok spec)
    (hcancel : env.cancelAt = none)
    (hterm : spec.terminal = StreamTerminal.eof)
    (hchunks : ∀ ch ∈ spec.chunks, ch ≠ [])
    (htext : extractText message ≠ "") :
    Process model taskID message env =
      (streamTrace model taskID (extractText message) c (nonEmptyIncrements spec.chunks)
         (env.usErr (1 + (nonEmptyIncrements spec.chunks).length)),
       if env.usErr (1 + (nonEmptyIncrements spec.chunks).length) then
         Outcome.error ("failed to update final task status: " ++ handleErrText)
       else Outcome.ok) := by
  have hloop := streamLoop_eof model spec.chunks 0 0 0 1 hchunks
  simp only [Nat.zero_add] at hloop
  unfold Process processWithOpenAIStreaming detectIntent
  simp only [hclf, hsc, hcancel, if_neg htext, hstream, hus0, Bool.true_eq_false,
    Bool.false_eq_true, if_false]
  by_cases hlen : 64 < taskID.utf8ByteSize <;>
    by_cases husN : env.usErr (1 + (nonEmptyIncrements spec.chunks).length) = true <;>
      simp [hlen, hterm, hloop, husN, streamTrace, streamPrefix]

/-- A streaming run that passes validation, classifies successfully, opens
the stream and is canceled at the j-th top-of-loop check: the whole trace
(ending in a canceled update AND a failed update) and outcome. -/
theorem Process_streaming_canceled (model taskID : String) (message : Message) (env : Env)
    (c : String) (cs : List String) (spec : StreamSpec) (j : Nat)
    (hstream : env.isStreaming = true)
    (hus0 : env.usErr 0 = false)
    (hclf : env.classifierResult = Except.ok (c :: cs))
    (hsc : env.streamCreate = Except.ok spec)
    (hcancel : env.cancelAt = some j)
    (hj : j ≤ spec.chunks.length)
    (htake : ∀ ch ∈ spec.chunks.take j, ch ≠ []) :
    extractText message ≠ "" →
    Process model taskID message env =
      (streamPrefix taskID (extractText message) (resolveIntent c)
         ++ loopEvents model 0 0 (nonEmptyIncrements (spec.chunks.take j))
         ++ [Event.updateStatus TaskState.canceled none,
             Event.updateStatus TaskState.failed
               (some (mkAgentMessage ("Failed to process with OpenAI: " ++ "context canceled")))],
       Outcome.error "context canceled") := by
  intro htext
  have hloop := streamLoop_cancel model spec.terminal j spec.chunks 0 0 0 1 hj htake
  rw [Nat.zero_add] at hloop
  unfold Process processWithOpenAIStreaming detectIntent
  simp only [hclf, hsc, hcancel, if_neg htext, hstream, hus0, Bool.true_eq_false,
    Bool.false_eq_true, if_false]
  by_cases hlen : 64 < taskID.utf8ByteSize <;>
    simp [hlen, hloop, streamPrefix]

end A2AServer

namespace A2AServer

/-! Further helper lemmas. -/

theorem extractTextParts_of_no_text :
    ∀ (parts : List Part), (∀ p ∈ parts, p.isText = false) → extractTextParts parts = "" := by
  intro parts
  induction parts with
  | nil => intro _; rfl
  | cons p rest ih =>
    intro h
    cases p with
    | text s => exact absurd (h (Part.text s) (by simp)) (by simp [Part.isText])
    | other => exact ih fun q hq => h q (by simp [hq])

theorem extractTextParts_first_text (s : String) :
    ∀ (pre : List Part) (post : List Part), (∀ p ∈ pre, p.isText = false) →
      extractTextParts (pre ++ Part.text s :: post) = s := by
  intro pre
  induction pre with
  | nil => intro post _; rfl
  | cons p rest ih =>
    intro post h
    cases p with
    | text t => exact absurd (h (Part.text t) (by simp)) (by simp [Part.isText])
    | other =>
      simp only [List.cons_append, extractTextParts]
      exact ih post fun q hq => h q (by simp [hq])

theorem contentArtifacts_index_lt (model : String) :
    ∀ (incs : List String) (chunkIndex totalLen : Nat) (a : Artifact),
      a ∈ contentArtifacts model chunkIndex totalLen incs →
      a.index < chunkIndex + incs.length := by
  intro incs
  induction incs with
  | nil => intro k l a h; simp [contentArtifacts] at h
  | cons c rest ih =>
    intro k l a h
    simp only [contentArtifacts, List.mem_cons] at h
    cases h with
    | inl h => subst h; simp only [contentArtifact, List.length_cons]; omega
    | inr h =>
      have := ih (k + 1) (l + c.utf8ByteSize) a h
      simp only [List.length_cons]
      omega

theorem artifactsOf_streamTrace_ok (model taskID text c : String) (incs : List String)
    (h : 0 < incs.length) :
    artifactsOf (streamTrace model taskID text c incs false) =
      contentArtifacts model 0 0 incs ++
        [closingArtifact model incs.length (incrementsLen incs)] := by
  unfold streamTrace
  simp only [Bool.false_eq_true, if_false, if_pos h]
  rw [artifactsOf_append, artifactsOf_append, artifactsOf_append,
    artifactsOf_streamPrefix, artifactsOf_loopEvents]
  simp [artifactsOf]

theorem artifactsOf_streamTrace_zero (model taskID text c : String) :
    artifactsOf (streamTrace model taskID text c [] false) = [] := by
  unfold streamTrace
  simp only [Bool.false_eq_true, if_false, List.length_nil, lt_self_iff_false, loopEvents,
    List.append_nil, List.nil_append]
  rw [artifactsOf_append, artifactsOf_streamPrefix]
  simp [artifactsOf]

/-- A one-text-part user message for concrete scenarios. -/
def mkUserMessage (s : String) : Message := NewMessage MessageRole.user [NewTextPart s]

/-! Claim theorems. -/

/-- Claim C1: every successful streaming run producing N > 0 non-empty
content increments appends exactly N content artifacts with strictly
increasing indices 0..N-1, append=false on index 0 and append=true on
indices 1..N-1, followed by exactly one closing artifact with lastChunk=true,
empty parts and index N-1, for a total artifact count of N + 1. -/
theorem c1_streaming_artifact_protocol (model taskID : String) (message : Message)
    (env : Env) (c : String) (cs : List String) (spec : StreamSpec)
    (hstream : env.isStreaming = true)
    (hus0 : env.usErr 0 = false)
    (hclf : env.classifierResult = Except.ok (c :: cs))
    (hsc : env.streamCreate = Except.ok spec)
    (hcancel : env.cancelAt = none)
    (hterm : spec.terminal = StreamTerminal.eof)
    (hchunks : ∀ ch ∈ spec.chunks, ch ≠ [])
    (htext : extractText message ≠ "")
    (husN : env.usErr (1 + (nonEmptyIncrements spec.chunks).length) = false)
    (hN : 0 < (nonEmptyIncrements spec.chunks).length) :
    (Process model taskID message env).2 = Outcome.ok ∧
    (artifactsOf (Process model taskID message env).1).length =
      (nonEmptyIncrements spec.chunks).length + 1 ∧
    (∀ i, i < (nonEmptyIncrements spec.chunks).length →
      ∀ a, (artifactsOf (Process model taskID message env).1)[i]? = some a →
        a.index = i ∧ a.append = some (decide (0 < i)) ∧ a.lastChunk = none ∧ a.parts ≠ []) ∧
    (∀ a, (artifactsOf (Process model taskID message env).1)[(nonEmptyIncrements spec.chunks).length]? = some a →
        a.lastChunk = some true ∧ a.parts = [] ∧
        a.index = (nonEmptyIncrements spec.chunks).length - 1) := by
  have hrun := Process_streaming_eof model taskID message env c cs spec hstream hus0 hclf hsc
    hcancel hterm hchunks htext
  rw [husN] at hrun
  simp only [Bool.false_eq_true, if_false] at hrun
  have h1 : (Process model taskID message env).1 =
      streamTrace model taskID (extractText message) c (nonEmptyIncrements spec.chunks) false := by
    rw [hrun]
  have h2 : (Process model taskID message env).2 = Outcome.ok := by rw [hrun]
  have harts : artifactsOf (Process model taskID message env).1 =
      contentArtifacts model 0 0 (nonEmptyIncrements spec.chunks) ++
        [closingArtifact model (nonEmptyIncrements spec.chunks).length
          (incrementsLen (nonEmptyIncrements spec.chunks))] := by
    rw [h1, artifactsOf_streamTrace_ok model taskID (extractText message) c _ hN]
  have hlen : (contentArtifacts model 0 0 (nonEmptyIncrements spec.chunks)).length =
      (nonEmptyIncrements spec.chunks).length := contentArtifacts_length model _ 0 0
  refine ⟨h2, ?_, ?_, ?_⟩
  · rw [harts]; simp [hlen]
  · intro i hi a ha
    rw [harts] at ha
    rw [List.getElem?_append_left (by rw [hlen]; exact hi)] at ha
    have := contentArtifacts_props model (nonEmptyIncrements spec.chunks) 0 0 i a ha
    simpa using this
  · intro a ha
    rw [harts] at ha
    rw [List.getElem?_append_right (by rw [hlen])] at ha
    rw [hlen] at ha
    simp only [Nat.sub_self, List.getElem?_cons_zero, Option.some.injEq] at ha
    subst ha
    simp [closingArtifact]

def c1Spec : StreamSpec :=
  { chunks := [["Hello", "alt"], [""], ["world"]], terminal := StreamTerminal.eof }

def c1Env : Env :=
  { isStreaming := true
    classifierResult := Except.ok ["XiaoMei"]
    completionResult := Except.ok ["unused"]
    streamCreate := Except.ok c1Spec
    cancelAt := none
    usErr := fun _ => false
    aaErr := fun _ => false
    voiceErr := false }

/-- Witness for C1 at a concrete run with N = 2 increments. -/
theorem c1_streaming_artifact_protocol_witness :
    (Process "gpt" "task-1" (mkUserMessage "hi") c1Env).2 = Outcome.ok ∧
    (artifactsOf (Process "gpt" "task-1" (mkUserMessage "hi") c1Env).1).length = 2 + 1 ∧
    (∀ i, i < 2 →
      ∀ a, (artifactsOf (Process "gpt" "task-1" (mkUserMessage "hi") c1Env).1)[i]? = some a →
        a.index = i ∧ a.append = some (decide (0 < i)) ∧ a.lastChunk = none ∧ a.parts ≠ []) ∧
    (∀ a, (artifactsOf (Process "gpt" "task-1" (mkUserMessage "hi") c1Env).1)[2]? = some a →
        a.lastChunk = some true ∧ a.parts = [] ∧ a.index = 2 - 1) :=
  c1_streaming_artifact_protocol "gpt" "task-1" (mkUserMessage "hi") c1Env "XiaoMei" [] c1Spec
    rfl rfl rfl rfl rfl rfl (by decide) (by decide) rfl (by decide)

/-- Claim C8: a streaming run that ends normally with zero non-empty content
increments appends no artifact at all (in particular no closing artifact) and
still transitions to completed with a summary stating the increment count. -/
theorem c8_zero_increments_completed (model taskID : String) (message : Message)
    (env : Env) (c : String) (cs : List String) (spec : StreamSpec)
    (hstream : env.isStreaming = true)
    (hus0 : env.usErr 0 = false)
    (hclf : env.classifierResult = Except.ok (c :: cs))
    (hsc : env.streamCreate = Except.ok spec)
    (hcancel : env.cancelAt = none)
    (hterm : spec.terminal = StreamTerminal.eof)
    (hchunks : ∀ ch ∈ spec.chunks, ch ≠ [])
    (htext : extractText message ≠ "")
    (husFin : env.usErr 1 = false)
    (hzero : nonEmptyIncrements spec.chunks = []) :
    artifactsOf (Process model taskID message env).1 = [] ∧
    (Process model taskID message env).2 = Outcome.ok ∧
    (Process model taskID message env).1.getLast? =
      some (Event.updateStatus TaskState.completed
        (some (mkAgentMessage "Processing complete. Received 0 chunks."))) := by
  have hrun := Process_streaming_eof model taskID message env c cs spec hstream hus0 hclf hsc
    hcancel hterm hchunks htext
  rw [hzero] at hrun
  simp only [List.length_nil, Nat.add_zero, husFin, Bool.false_eq_true, if_false] at hrun
  have h1 : (Process model taskID message env).1 =
      streamTrace model taskID (extractText message) c [] false := by rw [hrun]
  have h2 : (Process model taskID message env).2 = Outcome.ok := by rw [hrun]
  refine ⟨?_, h2, ?_⟩
  · rw [h1, artifactsOf_streamTrace_zero]
  · rw [h1]
    have hbase : streamTrace model taskID (extractText message) c [] false =
        (streamPrefix taskID (extractText message) (resolveIntent c) ++ [])
          ++ [Event.updateStatus TaskState.completed
              (some (mkAgentMessage ("Processing complete. Received " ++ toString (0 : Nat) ++ " chunks.")))] := by
      simp [streamTrace, loopEvents]
    rw [hbase, List.getLast?_concat]
    decide

def c8Spec : StreamSpec := { chunks := [[""], [""]], terminal := StreamTerminal.eof }

def c8Env : Env :=
  { isStreaming := true
    classifierResult := Except.ok ["XiaoShuai"]
    completionResult := Except.ok ["unused"]
    streamCreate := Except.ok c8Spec
    cancelAt := none
    usErr := fun _ => false
    aaErr := fun _ => false
    voiceErr := false }

/-- Witness for C8 at a concrete run whose increments are all empty. -/
theorem c8_zero_increments_completed_witness :
    artifactsOf (Process "gpt" "task-8" (mkUserMessage "hi") c8Env).1 = [] ∧
    (Process "gpt" "task-8" (mkUserMessage "hi") c8Env).2 = Outcome.ok ∧
    (Process "gpt" "task-8" (mkUserMessage "hi") c8Env).1.getLast? =
      some (Event.updateStatus TaskState.completed
        (some (mkAgentMessage "Processing complete. Received 0 chunks."))) :=
  c8_zero_increments_completed "gpt" "task-8" (mkUserMessage "hi") c8Env "XiaoShuai" [] c8Spec
    rfl rfl rfl rfl rfl rfl (by decide) (by decide) rfl (by decide)

end A2AServer

namespace A2AServer

def c2Spec : StreamSpec := { chunks := [["ab"], ["c"]], terminal := StreamTerminal.eof }

def c2Env : Env :=
  { isStreaming := true
    classifierResult := Except.ok ["XiaoMei"]
    completionResult := Except.ok ["unused"]
    streamCreate := Except.ok c2Spec
    cancelAt := some 1
    usErr := fun _ => false
    aaErr := fun _ => false
    voiceErr := false }

/-- Claim C2 counterexample: cancellation observed after increment 0 was
emitted (k = 0) does set the task state to canceled and stops artifacts at
index 0, but Process (main.go:76-84) treats the returned ctx.Err() like any
other error and ALSO performs a failed-status update afterwards — the trace's
last event is updateStatus(failed), contradicting "no completed or failed
status transition is performed afterward". -/
theorem c2_cancellation_cex :
    (Process "gpt" "task-2" (mkUserMessage "hi") c2Env).2 = Outcome.error "context canceled" ∧
    Event.updateStatus TaskState.canceled none ∈ (Process "gpt" "task-2" (mkUserMessage "hi") c2Env).1 ∧
    (Process "gpt" "task-2" (mkUserMessage "hi") c2Env).1.getLast? =
      some (Event.updateStatus TaskState.failed
        (some (mkAgentMessage ("Failed to process with OpenAI: " ++ "context canceled")))) := by
  decide

/-- Claim C2 (amended): when the context is canceled at the j-th check,
mid-stream, the task state is set to canceled, no artifact beyond the
increments already emitted is appended, and no completed transition is
performed afterward; however Process then performs exactly one failed-status
update wrapping the cancellation error (it treats the cancellation error like
any other error return), so the run ends in a failed update, not silence. -/
theorem c2_cancellation_amended (model taskID : String) (message : Message)
    (env : Env) (c : String) (cs : List String) (spec : StreamSpec) (j : Nat)
    (hstream : env.isStreaming = true)
    (hus0 : env.usErr 0 = false)
    (hclf : env.classifierResult = Except.ok (c :: cs))
    (hsc : env.streamCreate = Except.ok spec)
    (hcancel : env.cancelAt = some j)
    (hj : j ≤ spec.chunks.length)
    (htake : ∀ ch ∈ spec.chunks.take j, ch ≠ [])
    (htext : extractText message ≠ "") :
    (Process model taskID message env).2 = Outcome.error "context canceled" ∧
    Event.updateStatus TaskState.canceled none ∈ (Process model taskID message env).1 ∧
    artifactsOf (Process model taskID message env).1 =
      contentArtifacts model 0 0 (nonEmptyIncrements (spec.chunks.take j)) ∧
    (∀ a ∈ artifactsOf (Process model taskID message env).1,
      a.index < (nonEmptyIncrements (spec.chunks.take j)).length) ∧
    (∀ m, Event.updateStatus TaskState.completed m ∉ (Process model taskID message env).1) ∧
    (Process model taskID message env).1.getLast? =
      some (Event.updateStatus TaskState.failed
        (some (mkAgentMessage ("Failed to process with OpenAI: " ++ "context canceled")))) := by
  have hrun := Process_streaming_canceled model taskID message env c cs spec j hstream hus0
    hclf hsc hcancel hj htake htext
  have h1 : (Process model taskID message env).1 =
      streamPrefix taskID (extractText message) (resolveIntent c)
        ++ loopEvents model 0 0 (nonEmptyIncrements (spec.chunks.take j))
        ++ [Event.updateStatus TaskState.canceled none,
            Event.updateStatus TaskState.failed
              (some (mkAgentMessage ("Failed to process with OpenAI: " ++ "context canceled")))] := by
    rw [hrun]
  have h2 : (Process model taskID message env).2 = Outcome.error "context canceled" := by
    rw [hrun]
  have harts : artifactsOf (Process model taskID message env).1 =
      contentArtifacts model 0 0 (nonEmptyIncrements (spec.chunks.take j)) := by
    rw [h1, artifactsOf_append, artifactsOf_append, artifactsOf_streamPrefix,
      artifactsOf_loopEvents]
    simp [artifactsOf]
  refine ⟨h2, ?_, harts, ?_, ?_, ?_⟩
  · rw [h1]; simp
  · intro a ha
    rw [harts] at ha
    have := contentArtifacts_index_lt model (nonEmptyIncrements (spec.chunks.take j)) 0 0 a ha
    omega
  · intro m
    rw [h1]
    simp only [List.mem_append, List.mem_cons, List.not_mem_nil, not_or]
    refine ⟨⟨no_completed_in_streamPrefix taskID (extractText message) (resolveIntent c) m,
      no_completed_in_loopEvents model (nonEmptyIncrements (spec.chunks.take j)) 0 0 m⟩,
      by simp, by simp, by simp⟩
  · rw [h1]
    have : streamPrefix taskID (extractText message) (resolveIntent c)
        ++ loopEvents model 0 0 (nonEmptyIncrements (spec.chunks.take j))
        ++ [Event.updateStatus TaskState.canceled none,
            Event.updateStatus TaskState.failed
              (some (mkAgentMessage ("Failed to process with OpenAI: " ++ "context canceled")))] =
        (streamPrefix taskID (extractText message) (resolveIntent c)
          ++ loopEvents model 0 0 (nonEmptyIncrements (spec.chunks.take j))
          ++ [Event.updateStatus TaskState.canceled none])
          ++ [Event.updateStatus TaskState.failed
              (some (mkAgentMessage ("Failed to process with OpenAI: " ++ "context canceled")))] := by
      simp
    rw [this, List.getLast?_concat]

/-- Witness for the amended C2 at a concrete run (cancel at check 1, k = 0). -/
theorem c2_cancellation_amended_witness :
    (Process "gpt" "task-2" (mkUserMessage "hey") c2Env).2 = Outcome.error "context canceled" ∧
    Event.updateStatus TaskState.canceled none ∈ (Process "gpt" "task-2" (mkUserMessage "hey") c2Env).1 ∧
    artifactsOf (Process "gpt" "task-2" (mkUserMessage "hey") c2Env).1 =
      contentArtifacts "gpt" 0 0 (nonEmptyIncrements (c2Spec.chunks.take 1)) ∧
    (∀ a ∈ artifactsOf (Process "gpt" "task-2" (mkUserMessage "hey") c2Env).1,
      a.index < (nonEmptyIncrements (c2Spec.chunks.take 1)).length) ∧
    (∀ m, Event.updateStatus TaskState.completed m ∉ (Process "gpt" "task-2" (mkUserMessage "hey") c2Env).1) ∧
    (Process "gpt" "task-2" (mkUserMessage "hey") c2Env).1.getLast? =
      some (Event.updateStatus TaskState.failed
        (some (mkAgentMessage ("Failed to process with OpenAI: " ++ "context canceled")))) :=
  c2_cancellation_amended "gpt" "task-2" (mkUserMessage "hey") c2Env "XiaoMei" [] c2Spec 1
    rfl rfl rfl rfl rfl (by decide) (by decide) (by decide)

def c3Spec : StreamSpec := { chunks := [["ok"]], terminal := StreamTerminal.eof }

def c3Env : Env :=
  { isStreaming := true
    classifierResult := Except.ok ["XiaoMei"]
    completionResult := Except.ok ["unused"]
    streamCreate := Except.ok c3Spec
    cancelAt := none
    usErr := fun _ => false
    aaErr := fun _ => false
    voiceErr := false }

/-- Claim C3 counterexample: a TaskHandle whose UpdateStatus calls fail makes
the pipeline abort at the very first (initial working) status update — the
trace stops after that single event and Process returns the handle's error,
whereas the identical environment without the failure completes successfully.
Status-update failures are therefore not uniformly non-fatal. -/
theorem c3_reporting_failures_cex :
    (Process "gpt" "task-3" (mkUserMessage "hi") { c3Env with usErr := fun _ => true }).2 =
      Outcome.error handleErrText ∧
    (Process "gpt" "task-3" (mkUserMessage "hi") { c3Env with usErr := fun _ => true }).1 =
      [Event.updateStatus TaskState.working
        (some (mkAgentMessage "Starting to process your streaming data with OpenAI..."))] ∧
    (Process "gpt" "task-3" (mkUserMessage "hi") c3Env).2 = Outcome.ok := by
  decide

/-- A non-streaming run reads the UpdateStatus oracle only at call indices 0
(initial working update, main.go:279) and 1 (final completed update,
main.go:319) and never reads the AddArtifact oracle (main.go:309-311 only
logs); runs whose oracles agree there are identical. -/
theorem processNonStreaming_usErr_dep (model taskID text : String) (env : Env)
    (f g fa ga : Nat → Bool) (h0 : f 0 = g 0) (h1 : f 1 = g 1) :
    processNonStreaming model taskID text { env with usErr := f, aaErr := fa } =
    processNonStreaming model taskID text { env with usErr := g, aaErr := ga } := by
  unfold processNonStreaming
  have hpn : processWithOpenAINonStreaming model text taskID { env with usErr := f, aaErr := fa } =
      processWithOpenAINonStreaming model text taskID { env with usErr := g, aaErr := ga } := rfl
  rw [hpn]
  by_cases hf0 : f 0 = true
  · have hg0 : g 0 = true := by rw [← h0]; exact hf0
    simp [hf0, hg0]
  · have hf0f : f 0 = false := by revert hf0; cases f 0 <;> simp
    have hg0f : g 0 = false := by rw [← h0]; exact hf0f
    simp only [hf0f, hg0f, Bool.false_eq_true, if_false]
    rcases hpn2 : processWithOpenAINonStreaming model text taskID
      { env with usErr := g, aaErr := ga } with ⟨evs, r⟩
    cases r with
    | err m => simp
    | panicked => simp
    | ok content =>
      by_cases hf1 : f 1 = true
      · have hg1 : g 1 = true := by rw [← h1]; exact hf1
        simp [hf1, hg1]
      · have hf1f : f 1 = false := by revert hf1; cases f 1 <;> simp
        have hg1f : g 1 = false := by rw [← h1]; exact hf1f
        simp [hf1f, hg1f]

/-- Claim C3 (amended): failures of mid-stream progress status updates and of
every artifact-append call — in both the streaming and the non-streaming
path — are logged only: the whole trace and the top-level result are
unchanged no matter how those calls fail (the run depends on the UpdateStatus
oracle only at the initial and the final call index, and on the AddArtifact
oracle not at all); but failures of the initial working update
(main.go:71-74, 279-282) and of the final completed update (main.go:222-225,
319-322) abort the pipeline and propagate as errors. -/
theorem c3_reporting_failures_amended (model taskID : String) (message : Message)
    (env : Env) (c : String) (cs : List String)
    (hclf : env.classifierResult = Except.ok (c :: cs))
    (htext : extractText message ≠ "") :
    (∀ (spec : StreamSpec) (f g fa ga : Nat → Bool),
      env.isStreaming = true →
      env.streamCreate = Except.ok spec →
      env.cancelAt = none →
      spec.terminal = StreamTerminal.eof →
      (∀ ch ∈ spec.chunks, ch ≠ []) →
      f 0 = g 0 →
      f (1 + (nonEmptyIncrements spec.chunks).length) =
        g (1 + (nonEmptyIncrements spec.chunks).length) →
      Process model taskID message { env with usErr := f, aaErr := fa } =
      Process model taskID message { env with usErr := g, aaErr := ga }) ∧
    (∀ (f g fa ga : Nat → Bool),
      env.isStreaming = false →
      f 0 = g 0 → f 1 = g 1 →
      Process model taskID message { env with usErr := f, aaErr := fa } =
      Process model taskID message { env with usErr := g, aaErr := ga }) ∧
    (env.usErr 0 = true →
      (Process model taskID message env).2 = Outcome.error handleErrText) ∧
    (∀ (spec : StreamSpec),
      env.isStreaming = true →
      env.usErr 0 = false →
      env.streamCreate = Except.ok spec →
      env.cancelAt = none →
      spec.terminal = StreamTerminal.eof →
      (∀ ch ∈ spec.chunks, ch ≠ []) →
      env.usErr (1 + (nonEmptyIncrements spec.chunks).length) = true →
      (Process model taskID message env).2 =
        Outcome.error ("failed to update final task status: " ++ handleErrText)) ∧
    (∀ (c2 : String) (cs2 : List String),
      env.isStreaming = false →
      env.usErr 0 = false →
      env.completionResult = Except.ok (c2 :: cs2) →
      env.usErr 1 = true →
      (Process model taskID message env).2 =
        Outcome.error ("failed to update final task status: " ++ handleErrText)) := by
  refine ⟨?_, ?_, ?_, ?_, ?_⟩
  · intro spec f g fa ga hstream hsc hcancel hterm hchunks h0 hfin
    by_cases hf0 : f 0 = true
    · have hg0 : g 0 = true := by rw [← h0]; exact hf0
      unfold Process
      simp [if_neg htext, hstream, hf0, hg0]
    · have hf0f : f 0 = false := by revert hf0; cases f 0 <;> simp
      have hg0f : g 0 = false := by rw [← h0]; exact hf0f
      have h1 := Process_streaming_eof model taskID message { env with usErr := f, aaErr := fa }
        c cs spec hstream hf0f hclf hsc hcancel hterm hchunks htext
      have h2 := Process_streaming_eof model taskID message { env with usErr := g, aaErr := ga }
        c cs spec hstream hg0f hclf hsc hcancel hterm hchunks htext
      rw [h1, h2]
      by_cases hN : f (1 + (nonEmptyIncrements spec.chunks).length) = true
      · have hNg : g (1 + (nonEmptyIncrements spec.chunks).length) = true := by
          rw [← hfin]; exact hN
        simp [hN, hNg]
      · have hNf : f (1 + (nonEmptyIncrements spec.chunks).length) = false := by
          revert hN; cases f (1 + (nonEmptyIncrements spec.chunks).length) <;> simp
        have hNg : g (1 + (nonEmptyIncrements spec.chunks).length) = false := by
          rw [← hfin]; exact hNf
        simp [hNf, hNg]
  · intro f g fa ga hstr h0 h1
    unfold Process
    simp only [if_neg htext, hstr, if_pos rfl]
    exact processNonStreaming_usErr_dep model taskID (extractText message) env f g fa ga h0 h1
  · intro h0t
    unfold Process processNonStreaming
    by_cases hstr : env.isStreaming = false <;> simp [if_neg htext, hstr, h0t]
  · intro spec hstream hus0 hsc hcancel hterm hchunks husN
    have hrun := Process_streaming_eof model taskID message env c cs spec hstream hus0 hclf hsc
      hcancel hterm hchunks htext
    rw [hrun]
    simp [husN]
  · intro c2 cs2 hstr hus0 hcomp hus1
    unfold Process processNonStreaming processWithOpenAINonStreaming detectIntent
    simp only [hclf, hcomp, if_neg htext, hstr, hus0, Bool.false_eq_true, if_false]
    by_cases hlen : 64 < taskID.utf8ByteSize <;> simp [hlen, hus1]

def c3NonStreamEnv : Env :=
  { isStreaming := false
    classifierResult := Except.ok ["XiaoMei"]
    completionResult := Except.ok ["the answer"]
    streamCreate := Except.ok c3Spec
    cancelAt := none
    usErr := fun _ => false
    aaErr := fun _ => false
    voiceErr := false }

/-- Witness for the amended C3, exercising all five conjuncts at concrete
runs: (1) a streaming run whose progress update for chunk 1 fails and whose
every artifact append fails is identical to the failure-free run; (2) a
non-streaming run whose every artifact append fails is identical to the
failure-free run; (3) a failing initial working update aborts; (4) a failing
final completed update aborts a streaming run; (5) and a non-streaming run. -/
theorem c3_reporting_failures_amended_witness :
    (Process "gpt" "task-3" (mkUserMessage "hi")
        { c3Env with usErr := fun n => decide (n = 1), aaErr := fun _ => true } =
      Process "gpt" "task-3" (mkUserMessage "hi")
        { c3Env with usErr := fun _ => false, aaErr := fun _ => false }) ∧
    (Process "gpt" "task-3" (mkUserMessage "hi")
        { c3NonStreamEnv with usErr := fun _ => false, aaErr := fun _ => true } =
      Process "gpt" "task-3" (mkUserMessage "hi")
        { c3NonStreamEnv with usErr := fun _ => false, aaErr := fun _ => false }) ∧
    ((Process "gpt" "task-3" (mkUserMessage "hi")
        { c3Env with usErr := fun _ => true }).2 = Outcome.error handleErrText) ∧
    ((Process "gpt" "task-3" (mkUserMessage "hi")
        { c3Env with usErr := fun n => decide (n = 2) }).2 =
      Outcome.error ("failed to update final task status: " ++ handleErrText)) ∧
    ((Process "gpt" "task-3" (mkUserMessage "hi")
        { c3NonStreamEnv with usErr := fun n => decide (n = 1) }).2 =
      Outcome.error ("failed to update final task status: " ++ handleErrText)) := by
  have ha := c3_reporting_failures_amended "gpt" "task-3" (mkUserMessage "hi") c3Env
    "XiaoMei" [] rfl (by decide)
  have hb := c3_reporting_failures_amended "gpt" "task-3" (mkUserMessage "hi") c3NonStreamEnv
    "XiaoMei" [] rfl (by decide)
  have hc := c3_reporting_failures_amended "gpt" "task-3" (mkUserMessage "hi")
    { c3Env with usErr := fun _ => true } "XiaoMei" [] rfl (by decide)
  have hd := c3_reporting_failures_amended "gpt" "task-3" (mkUserMessage "hi")
    { c3Env with usErr := fun n => decide (n = 2) } "XiaoMei" [] rfl (by decide)
  have he := c3_reporting_failures_amended "gpt" "task-3" (mkUserMessage "hi")
    { c3NonStreamEnv with usErr := fun n => decide (n = 1) } "XiaoMei" [] rfl (by decide)
  refine ⟨?_, ?_, ?_, ?_, ?_⟩
  · exact ha.1 c3Spec (fun n => decide (n = 1)) (fun _ => false) (fun _ => true)
      (fun _ => false) rfl rfl rfl rfl (by decide) rfl rfl
  · exact hb.2.1 (fun _ => false) (fun _ => false) (fun _ => true) (fun _ => false)
      rfl rfl rfl
  · exact hc.2.2.1 rfl
  · exact hd.2.2.2.1 c3Spec rfl rfl rfl rfl rfl (by decide) rfl
  · exact he.2.2.2.2 "the answer" [] rfl rfl rfl rfl

end A2AServer

namespace A2AServer

/-- Claim C4: a message containing no text part fails validation — the run
returns the validation error, performs exactly one failed-status update whose
message quotes the error, and makes no model-backend (or voice) call at all. -/
theorem c4_no_text_validation_failure (model taskID : String) (message : Message)
    (env : Env) (h : ∀ p ∈ message.parts, p.isText = false) :
    Process model taskID message env =
      ([Event.updateStatus TaskState.failed
          (some (mkAgentMessage "input message must contain text"))],
       Outcome.error "input message must contain text") ∧
    (∀ e ∈ (Process model taskID message env).1,
      (∀ s u, e ≠ Event.classifierCall s u) ∧
      (∀ s u b, e ≠ Event.completionCall s u b) ∧
      (∀ i t, e ≠ Event.voiceCall i t)) := by
  have hx : extractText message = "" := extractTextParts_of_no_text message.parts h
  have hP : Process model taskID message env =
      ([Event.updateStatus TaskState.failed
          (some (mkAgentMessage "input message must contain text"))],
       Outcome.error "input message must contain text") := by
    unfold Process
    simp [hx]
  refine ⟨hP, ?_⟩
  intro e he
  rw [hP] at he
  simp only [List.mem_singleton] at he
  subst he
  refine ⟨by intro s u hc; exact Event.noConfusion hc,
    by intro s u b hc; exact Event.noConfusion hc,
    by intro i t hc; exact Event.noConfusion hc⟩

/-- Witness for C4 at a concrete text-free message. -/
theorem c4_no_text_validation_failure_witness :
    Process "gpt" "task-4" (NewMessage MessageRole.user [Part.other]) c3Env =
      ([Event.updateStatus TaskState.failed
          (some (mkAgentMessage "input message must contain text"))],
       Outcome.error "input message must contain text") ∧
    (∀ e ∈ (Process "gpt" "task-4" (NewMessage MessageRole.user [Part.other]) c3Env).1,
      (∀ s u, e ≠ Event.classifierCall s u) ∧
      (∀ s u b, e ≠ Event.completionCall s u b) ∧
      (∀ i t, e ≠ Event.voiceCall i t)) :=
  c4_no_text_validation_failure "gpt" "task-4" (NewMessage MessageRole.user [Part.other]) c3Env
    (by decide)

/-- Claim C5: whenever the classifier's trimmed first-choice content is not
exactly one of the two labels, detectIntent resolves to the fixed default
"XiaoMei" and returns successfully — no error is raised. -/
theorem c5_classifier_fallback_default (text taskID : String) (env : Env)
    (c : String) (cs : List String)
    (hclf : env.classifierResult = Except.ok (c :: cs))
    (h1 : trimSpace c ≠ "XiaoMei") (h2 : trimSpace c ≠ "XiaoShuai") :
    (detectIntent text taskID env).2 = CallResult.ok "XiaoMei" := by
  have hres : resolveIntent c = "XiaoMei" := by
    simp [resolveIntent, h1, h2]
  unfold detectIntent
  rw [hclf]
  by_cases hlen : 64 < taskID.utf8ByteSize <;> simp [hlen, hres]

/-- Witness for C5 at a concrete malformed classifier output. -/
theorem c5_classifier_fallback_default_witness :
    (detectIntent "hello" "task-5"
      { c3Env with classifierResult := Except.ok ["  banana  "] }).2 =
      CallResult.ok "XiaoMei" :=
  c5_classifier_fallback_default "hello" "task-5"
    { c3Env with classifierResult := Except.ok ["  banana  "] } "  banana  " []
    rfl (by decide) (by decide)

/-- Claim C6: after a successful classification the voice backend is invoked
exactly when the task identifier's (byte) length exceeds 64 — the trace is
the classifier call followed by the voice call or nothing — and the voice
call's outcome (success, failure, or being skipped) never affects the
returned value of detectIntent. -/
theorem c6_voice_update_gating (text taskID : String) (env : Env)
    (c : String) (cs : List String)
    (hclf : env.classifierResult = Except.ok (c :: cs)) :
    detectIntent text taskID env =
      (Event.classifierCall intentSystemPrompt text
         :: (if 64 < taskID.utf8ByteSize then [Event.voiceCall (resolveIntent c) taskID] else []),
       CallResult.ok (resolveIntent c)) ∧
    (∀ (env2 : Env) (b1 b2 : Bool),
      detectIntent text taskID { env2 with voiceErr := b1 } =
      detectIntent text taskID { env2 with voiceErr := b2 }) := by
  constructor
  · unfold detectIntent
    rw [hclf]
    by_cases hlen : 64 < taskID.utf8ByteSize <;> simp [hlen]
  · intro env2 b1 b2
    rfl

def c6TaskID80 : String := String.mk (List.replicate 80 'a')

/-- Witness for C6: an 80-byte task id triggers the voice call; a short one
is skipped (visible in the instantiated trace equation). -/
theorem c6_voice_update_gating_witness :
    detectIntent "hello" c6TaskID80 { c3Env with classifierResult := Except.ok ["XiaoShuai"] } =
      (Event.classifierCall intentSystemPrompt "hello"
         :: (if 64 < c6TaskID80.utf8ByteSize then
              [Event.voiceCall (resolveIntent "XiaoShuai") c6TaskID80] else []),
       CallResult.ok (resolveIntent "XiaoShuai")) ∧
    (∀ (env2 : Env) (b1 b2 : Bool),
      detectIntent "hello" c6TaskID80 { env2 with voiceErr := b1 } =
      detectIntent "hello" c6TaskID80 { env2 with voiceErr := b2 }) :=
  c6_voice_update_gating "hello" c6TaskID80
    { c3Env with classifierResult := Except.ok ["XiaoShuai"] } "XiaoShuai" [] rfl

/-- Claim C7: a non-streaming run whose completion response has at least one
choice appends exactly one artifact — lastChunk=true, index 0, the returned
content as its single text part; a completion response with zero choices is a
generation error ("no choices in OpenAI response") that fails the task and
appends no artifact. -/
theorem c7_nonstreaming_single_artifact (model taskID : String) (message : Message)
    (env : Env) (c0 : String) (cs0 : List String)
    (hstream : env.isStreaming = false)
    (hus0 : env.usErr 0 = false)
    (hclf : env.classifierResult = Except.ok (c0 :: cs0))
    (htext : extractText message ≠ "") :
    (∀ c cs, env.completionResult = Except.ok (c :: cs) →
      artifactsOf (Process model taskID message env).1 = [nonStreamingArtifact model c] ∧
      (nonStreamingArtifact model c).lastChunk = some true ∧
      (nonStreamingArtifact model c).index = 0 ∧
      (nonStreamingArtifact model c).parts = [NewTextPart c]) ∧
    (env.completionResult = Except.ok [] →
      (Process model taskID message env).2 = Outcome.error "no choices in OpenAI response" ∧
      artifactsOf (Process model taskID message env).1 = [] ∧
      Event.updateStatus TaskState.failed
          (some (mkAgentMessage ("Failed to process with OpenAI: " ++ "no choices in OpenAI response")))
        ∈ (Process model taskID message env).1) := by
  constructor
  · intro c cs hcomp
    unfold Process processNonStreaming processWithOpenAINonStreaming detectIntent
    simp only [hclf, hcomp, if_neg htext, hstream, hus0, Bool.false_eq_true, if_false]
    by_cases hlen : 64 < taskID.utf8ByteSize <;>
      by_cases hus1 : env.usErr 1 = true <;>
        simp [hlen, hus1, artifactsOf, nonStreamingArtifact]
  · intro hcomp
    unfold Process processNonStreaming processWithOpenAINonStreaming detectIntent
    simp only [hclf, hcomp, if_neg htext, hstream, hus0, Bool.false_eq_true, if_false]
    by_cases hlen : 64 < taskID.utf8ByteSize <;> simp [hlen, artifactsOf]

def c7Env : Env :=
  { isStreaming := false
    classifierResult := Except.ok ["XiaoMei"]
    completionResult := Except.ok ["the answer"]
    streamCreate := Except.ok c3Spec
    cancelAt := none
    usErr := fun _ => false
    aaErr := fun _ => false
    voiceErr := false }

/-- Witness for C7 at a concrete non-streaming run. -/
theorem c7_nonstreaming_single_artifact_witness :
    (∀ c cs, c7Env.completionResult = Except.ok (c :: cs) →
      artifactsOf (Process "gpt" "task-7" (mkUserMessage "hi") c7Env).1 =
        [nonStreamingArtifact "gpt" c] ∧
      (nonStreamingArtifact "gpt" c).lastChunk = some true ∧
      (nonStreamingArtifact "gpt" c).index = 0 ∧
      (nonStreamingArtifact "gpt" c).parts = [NewTextPart c]) ∧
    (c7Env.completionResult = Except.ok [] →
      (Process "gpt" "task-7" (mkUserMessage "hi") c7Env).2 =
        Outcome.error "no choices in OpenAI response" ∧
      artifactsOf (Process "gpt" "task-7" (mkUserMessage "hi") c7Env).1 = [] ∧
      Event.updateStatus TaskState.failed
          (some (mkAgentMessage ("Failed to process with OpenAI: " ++ "no choices in OpenAI response")))
        ∈ (Process "gpt" "task-7" (mkUserMessage "hi") c7Env).1) :=
  c7_nonstreaming_single_artifact "gpt" "task-7" (mkUserMessage "hi") c7Env "XiaoMei" []
    rfl rfl rfl (by decide)

end A2AServer

namespace A2AServer

theorem detectIntent_snd_ne_panicked (text taskID : String) (env : Env)
    (h : ∀ choices, env.classifierResult = Except.ok choices → choices ≠ []) :
    (detectIntent text taskID env).2 ≠ CallResult.panicked := by
  unfold detectIntent
  cases hc : env.classifierResult with
  | error e => simp
  | ok choices =>
    cases choices with
    | nil => exact absurd rfl (h [] hc)
    | cons c cs => by_cases hlen : 64 < taskID.utf8ByteSize <;> simp [hlen]

theorem processWithOpenAINonStreaming_snd_ne_panicked (model text taskID : String)
    (env : Env)
    (h : ∀ choices, env.classifierResult = Except.ok choices → choices ≠ []) :
    (processWithOpenAINonStreaming model text taskID env).2 ≠ CallResult.panicked := by
  unfold processWithOpenAINonStreaming
  rcases hdi : detectIntent text taskID env with ⟨ievs, r⟩
  have hr : r ≠ CallResult.panicked := by
    have hne := detectIntent_snd_ne_panicked text taskID env h
    rw [hdi] at hne
    exact hne
  cases r with
  | err m => simp
  | panicked => exact absurd rfl hr
  | ok intent =>
    cases hcomp : env.completionResult with
    | error e => simp
    | ok choices => cases choices <;> simp

theorem processWithOpenAIStreaming_snd_ne_panicked (model taskID text : String)
    (env : Env) (usCount : Nat)
    (hclf : ∀ choices, env.classifierResult = Except.ok choices → choices ≠ [])
    (hchunks : ∀ spec, env.streamCreate = Except.ok spec → ∀ ch ∈ spec.chunks, ch ≠ []) :
    (processWithOpenAIStreaming model taskID text env usCount).2 ≠ Outcome.panicked := by
  unfold processWithOpenAIStreaming
  rcases hdi : detectIntent text taskID env with ⟨ievs, r⟩
  have hr : r ≠ CallResult.panicked := by
    have hne := detectIntent_snd_ne_panicked text taskID env hclf
    rw [hdi] at hne
    exact hne
  cases r with
  | err m => simp
  | panicked => exact absurd rfl hr
  | ok intent =>
    cases hsc : env.streamCreate with
    | error e => simp
    | ok spec =>
      have hex := streamLoop_exit_ne_panicked model env.cancelAt spec.terminal spec.chunks
        0 0 0 usCount (hchunks spec hsc)
      cases hexit : (streamLoop model env.cancelAt spec.chunks spec.terminal 0 0 0 usCount).exit with
      | finished n t =>
        by_cases hus : env.usErr (streamLoop model env.cancelAt spec.chunks spec.terminal 0 0 0 usCount).usCount = true <;>
          simp [hexit, hus]
      | canceledExit => simp [hexit]
      | recvFailed m => simp [hexit]
      | panicked => exact absurd hexit hex

def c9PanicEnv : Env :=
  { isStreaming := true
    classifierResult := Except.ok []
    completionResult := Except.ok ["unused"]
    streamCreate := Except.ok c3Spec
    cancelAt := none
    usErr := fun _ => false
    aaErr := fun _ => false
    voiceErr := false }

/-- Claim C9: detectIntent and the streaming receive loop read Choices[0]
without a bounds check; whenever every successful classification response and
every successfully received stream chunk carries at least one choice, the
pipeline cannot panic (the non-streaming generation path is the only one with
its own emptiness guard, so it needs no such precondition); and without the
precondition the panic is reachable, as the concrete empty-Choices
environment shows. -/
theorem c9_unchecked_choices_precondition (model taskID : String) (message : Message)
    (env : Env)
    (hclf : ∀ choices, env.classifierResult = Except.ok choices → choices ≠ [])
    (hchunks : ∀ spec, env.streamCreate = Except.ok spec → ∀ ch ∈ spec.chunks, ch ≠ []) :
    (Process model taskID message env).2 ≠ Outcome.panicked ∧
    (Process "gpt" "task-9" (mkUserMessage "hi") c9PanicEnv).2 = Outcome.panicked := by
  constructor
  · unfold Process
    by_cases hx : extractText message = ""
    · simp [hx]
    · simp only [if_neg hx]
      by_cases hstr : env.isStreaming = false
      · simp only [hstr, if_pos rfl]
        unfold processNonStreaming
        by_cases hus0 : env.usErr 0 = true
        · simp [hus0]
        · simp only [hus0, Bool.false_eq_true, if_false]
          rcases hpn : processWithOpenAINonStreaming model (extractText message) taskID env
            with ⟨evs, r⟩
          have hr : r ≠ CallResult.panicked := by
            have hne := processWithOpenAINonStreaming_snd_ne_panicked model
              (extractText message) taskID env hclf
            rw [hpn] at hne
            exact hne
          cases r with
          | err m => simp
          | panicked => exact absurd rfl hr
          | ok content =>
            by_cases hus1 : env.usErr 1 = true <;> simp [hus1]
      · simp only [hstr, if_neg hstr, if_false]
        by_cases hus0 : env.usErr 0 = true
        · simp [hus0]
        · simp only [hus0, Bool.false_eq_true, if_false]
          rcases hps : processWithOpenAIStreaming model taskID (extractText message) env 1
            with ⟨evs, o⟩
          have ho : o ≠ Outcome.panicked := by
            have hne := processWithOpenAIStreaming_snd_ne_panicked model taskID
              (extractText message) env 1 hclf hchunks
            rw [hps] at hne
            exact hne
          cases o with
          | ok => simp
          | error m => simp
          | panicked => exact absurd rfl ho
  · decide

/-- Witness for C9 at a concrete environment satisfying the precondition. -/
theorem c9_unchecked_choices_precondition_witness :
    (Process "gpt" "task-1" (mkUserMessage "hi") c1Env).2 ≠ Outcome.panicked ∧
    (Process "gpt" "task-9" (mkUserMessage "hi") c9PanicEnv).2 = Outcome.panicked :=
  c9_unchecked_choices_precondition "gpt" "task-1" (mkUserMessage "hi") c1Env
    (by
      intro choices h
      simp only [c1Env] at h
      injection h with h
      subst h
      decide)
    (by
      intro spec h
      simp only [c1Env] at h
      injection h with h
      subst h
      decide)

/-- Claim C10: text extraction returns the text of the first text-kind part
even when that text is empty and never examines later parts; hence every
message whose first text part carries "" fails validation even when a later
text part of the same message is non-empty (the arbitrary tail covers it). -/
theorem c10_first_text_part_empty (model taskID : String) (role : MessageRole)
    (pre post : List Part) (env : Env)
    (hpre : ∀ p ∈ pre, p.isText = false) :
    (∀ s, extractText (NewMessage role (pre ++ Part.text s :: post)) = s) ∧
    Process model taskID (NewMessage role (pre ++ Part.text "" :: post)) env =
      ([Event.updateStatus TaskState.failed
          (some (mkAgentMessage "input message must contain text"))],
       Outcome.error "input message must contain text") := by
  have hall : ∀ s, extractText (NewMessage role (pre ++ Part.text s :: post)) = s := by
    intro s
    exact extractTextParts_first_text s pre post hpre
  refine ⟨hall, ?_⟩
  unfold Process
  simp [hall ""]

/-- Witness for C10: first text part empty, a later text part non-empty. -/
theorem c10_first_text_part_empty_witness :
    (∀ s, extractText (NewMessage MessageRole.user ([Part.other] ++ Part.text s :: [Part.text "hello"])) = s) ∧
    Process "gpt" "task-10" (NewMessage MessageRole.user ([Part.other] ++ Part.text "" :: [Part.text "hello"])) c3Env =
      ([Event.updateStatus TaskState.failed
          (some (mkAgentMessage "input message must contain text"))],
       Outcome.error "input message must contain text") :=
  c10_first_text_part_empty "gpt" "task-10" MessageRole.user [Part.other] [Part.text "hello"]
    c3Env (by decide)

end A2AServer
